import Mathlib

/-!
# SelfRadio — verification of the broadcast core

A shallow embedding of the SelfRadio internet-radio program (PlaylistGenerator,
RadioScheduler, AudioAnalyzer, StreamManager / EnhancedStreamManager), with
theorems settling the spec claims about it.

Modelling conventions:
* JavaScript numbers are embedded as `ℚ` where fractional arithmetic occurs
  (`Math.random()` outcomes, bitrate estimation) and as `Nat` where the code
  only ever handles whole milliseconds or indices.
* `Math.random()` is an oracle stream `u : Nat → ℚ`; each call site consumes
  the next value of the stream (tracked by the counter `GenState.k`).
  JavaScript guarantees outcomes in `[0, 1)`; theorems that depend on that
  range carry it as a hypothesis.
* `Date.now()` is a parameter `now : Nat`.
* JavaScript `undefined` / `null` fields are embedded as `Option`.
* The unbounded recursion in `PlaylistGenerator.createMusic` is embedded with
  an explicit fuel parameter; `none` means the recursion did not terminate
  within the given bound.
-/

namespace SelfRadioSpec

/-- An audio item as produced by `AudioLibrary.createAudioItem` /
`createMusicItem` and consumed by the generator and the stream managers.
`path` is `none` for synthetic filler items; `artist` is absent (`none`) on
non-music items; the gapless flags are absent (`false`) until
`createGaplessSequence` sets them. -/
structure AudioItem where
  path : Option String
  title : String
  artist : Option String
  type : String
  duration : Nat
  startTime : Option Nat
  isGaplessStart : Bool := false
  isGapless : Bool := false
  isGaplessEnd : Bool := false
deriving DecidableEq, Repr

/-- The named pools of `AudioLibrary.library`.  The time-of-day, weather and
transition pools are keyed by their bucket string, as in the source object. -/
structure Library where
  music : List AudioItem
  jingles : List AudioItem
  ads : List AudioItem
  djIntros : List AudioItem
  djOutros : List AudioItem
  djSolos : List AudioItem
  djIds : List AudioItem
  djTimeOfDay : String → List AudioItem
  djWeather : String → List AudioItem
  djTransitions : String → List AudioItem

/-- The mutable state threaded through `PlaylistGenerator`: the index of the
next `Math.random()` draw and `lastPlayedMusic` (the anti-repeat history). -/
structure GenState where
  k : Nat
  hist : List String
deriving DecidableEq, Repr

/-- `PlaylistGenerator.maxHistorySize`. -/
def maxHistorySize : Nat := 20

/-- `PlaylistGenerator.wasRecentlyPlayed`: membership of the title in
`lastPlayedMusic`. -/
def wasRecentlyPlayed (hist : List String) (title : String) : Bool :=
  hist.contains title

/-- `PlaylistGenerator.addToHistory`: push the title, then shift the oldest
entry out once the length exceeds `maxHistorySize`. -/
def addToHistory (hist : List String) (title : String) : List String :=
  let h := hist ++ [title]
  if h.length > maxHistorySize then h.drop 1 else h

/-- `PlaylistGenerator.createFallbackItem`: the synthetic filler item with a
null path and a fixed 5000 ms duration. -/
def createFallbackItem (now : Nat) : AudioItem :=
  { path := none
    title := "Radio Station"
    artist := some "On Air"
    type := "station-id"
    duration := 5000
    startTime := some now }

/-- `AudioLibrary.getRandomFrom`: `null` on an empty pool (no `Math.random()`
call), otherwise one draw selects index `⌊q * length⌋`. -/
def getRandomFrom (u : Nat → ℚ) (arr : List AudioItem) (s : GenState) :
    Option AudioItem × GenState :=
  if arr.length = 0 then (none, s)
  else
    let q := u s.k
    (arr.get? (Int.toNat ⌊q * arr.length⌋), ⟨s.k + 1, s.hist⟩)

/-- `PlaylistGenerator.createMusic`, embedded with fuel.  The source retries
by unbounded self-recursion whenever the drawn title is in the history
(`return this.createMusic()`); `none` records that the recursion consumed all
fuel without returning. -/
def createMusic (lib : Library) (u : Nat → ℚ) (now : Nat) :
    Nat → GenState → Option (AudioItem × GenState)
  | 0, _ => none
  | fuel + 1, s =>
    match getRandomFrom u lib.music s with
    | (none, s1) => some (createFallbackItem now, s1)
    | (some music, s1) =>
      if wasRecentlyPlayed s1.hist music.title then
        createMusic lib u now fuel s1
      else
        some ({ music with startTime := some now },
              ⟨s1.k, addToHistory s1.hist music.title⟩)

/-- First half of `PlaylistGenerator.createGaplessSequence`: mark the first
member with `isGaplessStart` (`items[0].isGaplessStart = true`). -/
def markFirstGaplessStart : List AudioItem → List AudioItem
  | [] => []
  | x :: xs => { x with isGaplessStart := true } :: xs

/-- Mark the last member with `isGaplessEnd`
(`items[items.length - 1].isGaplessEnd = true`). -/
def markLastGaplessEnd : List AudioItem → List AudioItem
  | [] => []
  | [x] => [{ x with isGaplessEnd := true }]
  | x :: y :: xs => x :: markLastGaplessEnd (y :: xs)

/-- The `forEach` timing pass of `createGaplessSequence`: each member receives
the running start time and the `isGapless` flag, and the clock advances by its
duration. -/
def applyGaplessTiming (t : Nat) : List AudioItem → List AudioItem
  | [] => []
  | x :: xs =>
    { x with startTime := some t, isGapless := true } ::
      applyGaplessTiming (t + x.duration) xs

/-- `PlaylistGenerator.createGaplessSequence`: lists of at most one item pass
through unchanged; otherwise the boundary flags are set and the members get
contiguous start times from `Date.now()`. -/
def createGaplessSequence (now : Nat) (items : List AudioItem) :
    List AudioItem :=
  if items.length ≤ 1 then items
  else applyGaplessTiming now (markLastGaplessEnd (markFirstGaplessStart items))

/-- The weighted branch of `PlaylistGenerator.determineContentType` (the
cascading `rand <` thresholds). -/
def weightedPick (rand : ℚ) : String :=
  if rand < 0.1 then "jingle"
  else if rand < 0.15 then "dj-solo"
  else if rand < 0.3 then "music-with-intro"
  else if rand < 0.4 then "music-with-outro"
  else "music-solo"

/-- `PlaylistGenerator.determineContentType`: one draw for `rand`; when the
position is positive a second draw picks a period in {5, 6, 7}, and a position
divisible by that period forces `station-id`; otherwise the weighted cascade
on `rand` decides.  Short-circuit evaluation means the period draw is skipped
at position 0. -/
def determineContentType (u : Nat → ℚ) (position : Nat) (s : GenState) :
    String × GenState :=
  let rand := u s.k
  let s1 : GenState := ⟨s.k + 1, s.hist⟩
  if position > 0 then
    let p := u s1.k
    let s2 : GenState := ⟨s1.k + 1, s1.hist⟩
    if position % (5 + Int.toNat ⌊p * 3⌋) = 0 then ("station-id", s2)
    else (weightedPick rand, s2)
  else (weightedPick rand, s1)

/-- `PlaylistGenerator.createDJSolo`: one draw from the DJ solo pool, filler
when the pool is empty. -/
def createDJSolo (lib : Library) (u : Nat → ℚ) (now : Nat) (s : GenState) :
    AudioItem × GenState :=
  match getRandomFrom u lib.djSolos s with
  | (none, s1) => (createFallbackItem now, s1)
  | (some solo, s1) => ({ solo with startTime := some now }, s1)

/-- `PlaylistGenerator.createJingle`. -/
def createJingle (lib : Library) (u : Nat → ℚ) (now : Nat) (s : GenState) :
    AudioItem × GenState :=
  match getRandomFrom u lib.jingles s with
  | (none, s1) => (createFallbackItem now, s1)
  | (some jingle, s1) => ({ jingle with startTime := some now }, s1)

/-- `PlaylistGenerator.createStationID`. -/
def createStationID (lib : Library) (u : Nat → ℚ) (now : Nat) (s : GenState) :
    AudioItem × GenState :=
  match getRandomFrom u lib.djIds s with
  | (none, s1) => (createFallbackItem now, s1)
  | (some i, s1) => ({ i with startTime := some now }, s1)

/-- `PlaylistGenerator.createMusicWithIntro`: the intro is drawn first, then
the music; a missing intro degrades to the bare music item, otherwise the two
are wrapped as a gapless sequence. -/
def createMusicWithIntro (lib : Library) (u : Nat → ℚ) (now fuel : Nat)
    (s : GenState) : Option (List AudioItem × GenState) :=
  let (intro, s1) := getRandomFrom u lib.djIntros s
  match createMusic lib u now fuel s1 with
  | none => none
  | some (music, s2) =>
    match intro with
    | none => some ([music], s2)
    | some intro => some (createGaplessSequence now [intro, music], s2)

/-- `PlaylistGenerator.createMusicWithOutro`: the music is drawn first, then
the outro. -/
def createMusicWithOutro (lib : Library) (u : Nat → ℚ) (now fuel : Nat)
    (s : GenState) : Option (List AudioItem × GenState) :=
  match createMusic lib u now fuel s with
  | none => none
  | some (music, s1) =>
    match getRandomFrom u lib.djOutros s1 with
    | (none, s2) => some ([music], s2)
    | (some outro, s2) => some (createGaplessSequence now [music, outro], s2)

/-- One iteration of the `generatePlaylist` loop: pick the content type for
this position and run the matching builder; the `switch` default also builds
solo music.  Sequences are pushed with spread, so every branch contributes a
flat list of items. -/
def buildPlaylistEntry (lib : Library) (u : Nat → ℚ) (now fuel : Nat)
    (position : Nat) (s : GenState) : Option (List AudioItem × GenState) :=
  let (contentType, s1) := determineContentType u position s
  if contentType = "music-with-intro" then
    createMusicWithIntro lib u now fuel s1
  else if contentType = "music-with-outro" then
    createMusicWithOutro lib u now fuel s1
  else if contentType = "music-solo" then
    (createMusic lib u now fuel s1).map (fun p => ([p.1], p.2))
  else if contentType = "dj-solo" then
    let (a, s2) := createDJSolo lib u now s1; some ([a], s2)
  else if contentType = "jingle" then
    let (a, s2) := createJingle lib u now s1; some ([a], s2)
  else if contentType = "station-id" then
    let (a, s2) := createStationID lib u now s1; some ([a], s2)
  else
    (createMusic lib u now fuel s1).map (fun p => ([p.1], p.2))

/-- The `for` loop of `generatePlaylist`: `position` is the loop index `i`,
the second argument the remaining count. -/
def genLoop (lib : Library) (u : Nat → ℚ) (now fuel : Nat) :
    Nat → Nat → GenState → Option (List AudioItem × GenState)
  | _, 0, s => some ([], s)
  | position, count + 1, s =>
    match buildPlaylistEntry lib u now fuel position s with
    | none => none
    | some (items, s1) =>
      match genLoop lib u now fuel (position + 1) count s1 with
      | none => none
      | some (rest, s2) => some (items ++ rest, s2)

/-- `PlaylistGenerator.generatePlaylist(count)` from a given generator
state. -/
def generatePlaylist (lib : Library) (u : Nat → ℚ) (now fuel count : Nat)
    (s : GenState) : Option (List AudioItem × GenState) :=
  genLoop lib u now fuel 0 count s

/-- The ad-collection loop of `createAdSegment`: `adCount` iterations, each a
draw from the ad pool, pushing only non-null results. -/
def collectAds (lib : Library) (u : Nat → ℚ) :
    Nat → List AudioItem → GenState → List AudioItem × GenState
  | 0, seg, s => (seg, s)
  | n + 1, seg, s =>
    match getRandomFrom u lib.ads s with
    | (none, s1) => collectAds lib u n seg s1
    | (some ad, s1) => collectAds lib u n (seg ++ [ad]) s1

/-- `PlaylistGenerator.createAdSegment`: an optional `TO_AD` transition, then
1–2 ad draws (`Math.floor(Math.random() * 2) + 1`); two or more collected
items become a gapless sequence, one is returned bare, and none at all yields
exactly one filler item. -/
def createAdSegment (lib : Library) (u : Nat → ℚ) (now : Nat) (s : GenState) :
    List AudioItem × GenState :=
  let (transition, s1) := getRandomFrom u (lib.djTransitions "TO_AD") s
  let seg := match transition with
    | some t => [t]
    | none => []
  let q := u s1.k
  let s2 : GenState := ⟨s1.k + 1, s1.hist⟩
  let adCount := Int.toNat ⌊q * 2⌋ + 1
  let (seg2, s3) := collectAds lib u adCount seg s2
  if seg2.length > 1 then (createGaplessSequence now seg2, s3)
  else if seg2.length > 0 then (seg2, s3)
  else ([createFallbackItem now], s3)

/-- A `RadioScheduler.queue` entry: `generatePlaylist` contributes single
items (its sequences are pushed with spread), while
`scheduleWeatherSegment` / `scheduleTimeAnnouncement` / `scheduleAdBreak`
unshift whole arrays (segments) onto the front of the queue. -/
inductive QueueEntry where
  | item (a : AudioItem)
  | seg (items : List AudioItem)
deriving DecidableEq, Repr

/-- The record shape returned by `RadioScheduler.getUpcoming`; `none` embeds
the JavaScript `undefined` a property access produces on a value that lacks
the property (in particular on an array). -/
structure UpcomingEntry where
  title : Option String
  artist : Option String
  type : Option String
  duration : Option Nat
deriving DecidableEq, Repr

/-- The `map` body of `getUpcoming`: `track.title` etc. on a single item reads
its fields (`artist` is itself `undefined` on non-music items); on a segment
(an array) every property access yields `undefined`. -/
def upcomingProjection : QueueEntry → UpcomingEntry
  | .item a => ⟨some a.title, a.artist, some a.type, some a.duration⟩
  | .seg _ => ⟨none, none, none, none⟩

/-- `RadioScheduler.getUpcoming`: `queue.slice(0, 5).map(...)`. -/
def getUpcoming (queue : List QueueEntry) : List UpcomingEntry :=
  (queue.take 5).map upcomingProjection

/-- The `bitrateEstimates` table of
`AudioAnalyzer.estimateDurationFromFileSize`, with the `|| 128` default. -/
def bitrateEstimate (ext : String) : ℚ :=
  if ext = ".mp3" then 128
  else if ext = ".wav" then 1411
  else if ext = ".flac" then 800
  else if ext = ".ogg" then 128
  else if ext = ".mp2" then 128
  else if ext = ".wma" then 128
  else if ext = ".wax" then 128
  else 128

/-- `AudioAnalyzer.estimateDurationFromFileSize`, parametrised by what the
code reads from the file: `statSize` is the `fs.stat` result in bytes
(`none` when `stat` throws), `ext` the lower-cased extension, and `q` the
`Math.random()` outcome consumed only in the catch branch.  The try branch
computes `⌊(size/1024 * 8) / bitrate * 1000⌋` ms; the catch branch returns
`⌊q * 240000⌋ + 60000` ms. -/
def estimateDurationFromFileSize (statSize : Option Nat) (ext : String)
    (q : ℚ) : ℤ :=
  match statSize with
  | some size =>
    let fileSizeKB : ℚ := (size : ℚ) / 1024
    let durationSeconds := fileSizeKB * 8 / bitrateEstimate ext
    ⌊durationSeconds * 1000⌋
  | none => ⌊q * 240000⌋ + 60000

/-- The UTF-8 bytes of `"StreamTitle='"`. -/
def streamTitleOpen : List Nat :=
  [83, 116, 114, 101, 97, 109, 84, 105, 116, 108, 101, 61, 39]

/-- The UTF-8 bytes of `"Unknown"` (the `|| 'Unknown'` default title). -/
def unknownTitleBytes : List Nat := [85, 110, 107, 110, 111, 119, 110]

/-- The UTF-8 bytes of `" - "`. -/
def artistSeparator : List Nat := [32, 45, 32]

/-- The UTF-8 bytes of `"';"`. -/
def streamTitleClose : List Nat := [39, 59]

/-- The metadata text built by `EnhancedStreamManager.sendICYMetadata`,
modelled at the byte level (`Buffer.from(metadataString, 'utf8')`): title and
artist stand for their UTF-8 byte sequences, the empty list for the falsy
empty string. -/
def icyMetadataString (title artist : List Nat) : List Nat :=
  streamTitleOpen ++
    (if artist = [] then [] else artist ++ artistSeparator) ++
    (if title = [] then unknownTitleBytes else title) ++
    streamTitleClose

/-- `metadataLength` in `sendICYMetadata`: the byte length of the metadata
text rounded up to 16-byte units (`Math.ceil(length / 16)`). -/
def icyUnits (title artist : List Nat) : Nat :=
  ((icyMetadataString title artist).length + 15) / 16

/-- The packet written by `sendICYMetadata`:
`Buffer.concat([Buffer.from([metadataLength]), paddedMetadata])`.
`Buffer.from` stores the length byte modulo 256; `paddedMetadata` is the
metadata text zero-padded to `metadataLength * 16` bytes. -/
def icyPacket (title artist : List Nat) : List Nat :=
  let m := icyMetadataString title artist
  let k := icyUnits title artist
  (k % 256) :: (m ++ List.replicate (k * 16 - m.length) 0)

/-- A connected listener (`response` object) of the stream managers;
`destroyed` is the flag checked before each pipe. -/
structure Client where
  id : Nat
  destroyed : Bool
deriving DecidableEq, Repr

/-- The observable actions the `EnhancedStreamManager` performs: killing the
ffmpeg pipeline, spawning a new one (single input or concat list), piping the
live stream to a client, and writing an ICY metadata packet to a client. -/
inductive Effect where
  | killPipeline (pid : Nat)
  | spawnSingle (path : String) (pid : Nat)
  | spawnConcat (paths : List String) (pid : Nat)
  | pipeTo (client : Nat)
  | metadataSent (client : Nat)
deriving DecidableEq, Repr

/-- The mutable fields of `EnhancedStreamManager` the claims touch: the
listener set, the current stream / ffmpeg process handles, and the current
track. -/
structure ESMState where
  clients : List Client
  currentStream : Option Nat
  ffmpegProcess : Option Nat
  currentTrack : Option AudioItem
deriving DecidableEq, Repr

/-- `stopCurrentStream`, as defined on the base `StreamManager` (the method
`EnhancedStreamManager` calls but does not itself define): kill the ffmpeg
process if any and clear both handles. -/
def stopCurrentStream (st : ESMState) : ESMState × List Effect :=
  match st.ffmpegProcess with
  | some pid =>
    ({ st with ffmpegProcess := none, currentStream := none },
     [Effect.killPipeline pid])
  | none => ({ st with currentStream := none }, [])

/-- `EnhancedStreamManager.playFallbackAudio`: the body only logs and stops
the current stream — it synthesizes nothing and writes nothing to the
listeners. -/
def playFallbackAudio (st : ESMState) : ESMState × List Effect :=
  stopCurrentStream st

/-- `EnhancedStreamManager.broadcastICYMetadata`: one metadata record to every
non-destroyed client, skipped entirely when no current track is set. -/
def broadcastICYMetadata (st : ESMState) : List Effect :=
  match st.currentTrack with
  | none => []
  | some _ =>
    (st.clients.filter (fun c => !c.destroyed)).map
      (fun c => Effect.metadataSent c.id)

/-- `setupStreamPiping`: pipe the fresh stream to every non-destroyed
client. -/
def setupStreamPiping (st : ESMState) : List Effect :=
  (st.clients.filter (fun c => !c.destroyed)).map (fun c => Effect.pipeTo c.id)

/-- `EnhancedStreamManager.playTrack` (success path of `createAudioStream`,
with `pid` the handle of the spawned pipeline): a null path routes to
`playFallbackAudio`; otherwise the old pipeline is stopped, a new one spawned
and piped, and metadata broadcast. -/
def playTrack (st : ESMState) (track : AudioItem) (pid : Nat) :
    ESMState × List Effect :=
  let st0 := { st with currentTrack := some track }
  match track.path with
  | none => playFallbackAudio st0
  | some p =>
    let (st1, e1) := stopCurrentStream st0
    let st2 := { st1 with ffmpegProcess := some pid, currentStream := some pid }
    (st2, e1 ++ [Effect.spawnSingle p pid] ++ setupStreamPiping st2 ++
      broadcastICYMetadata st2)

/-- `createConcatFile`: the concat list holds the paths of the tracks that
have one (`tracks.filter(track => track.path)`). -/
def createConcatContent (tracks : List AudioItem) : List String :=
  tracks.filterMap (fun t => t.path)

/-- `EnhancedStreamManager.playGaplessSequence` (success path of
`createConcatStream`): an empty track list returns immediately; otherwise the
first track becomes the current one, the old pipeline is stopped, one concat
pipeline is spawned over all members and piped, and metadata is broadcast
once. -/
def playGaplessSequence (st : ESMState) (tracks : List AudioItem) (pid : Nat) :
    ESMState × List Effect :=
  if tracks.length = 0 then (st, [])
  else
    let st0 := { st with currentTrack := tracks.head? }
    let (st1, e1) := stopCurrentStream st0
    let st2 := { st1 with ffmpegProcess := some pid, currentStream := some pid }
    (st2, e1 ++ [Effect.spawnConcat (createConcatContent tracks) pid] ++
      setupStreamPiping st2 ++ broadcastICYMetadata st2)

/-- The duration the base `StreamManager.playFallbackAudio` synthesizes for:
`track.duration || 30000` (a missing or zero duration falls back to the
30-second default). -/
def streamManagerFallbackDuration (trackDuration : Nat) : Nat :=
  if trackDuration = 0 then 30000 else trackDuration

/-- The PCM sample count of the base manager's fallback tone:
`Math.floor(duration * sampleRate / 1000)` at 44100 Hz. -/
def fallbackSamples (trackDuration : Nat) : Nat :=
  Int.toNat ⌊(streamManagerFallbackDuration trackDuration : ℚ) * 44100 / 1000⌋

/-- The byte length of the synthesized buffer: 4 bytes (16-bit stereo) per
sample. -/
def fallbackBufferBytes (trackDuration : Nat) : Nat :=
  fallbackSamples trackDuration * 4

/-- The play length, in milliseconds, of the synthesized buffer at
44100 samples per second. -/
def fallbackPlayLengthMs (trackDuration : Nat) : ℚ :=
  (fallbackSamples trackDuration : ℚ) * 1000 / 44100

/-- A music item titled "Song A", as built by `createMusicItem`. -/
def songA : AudioItem :=
  { path := some "/audio/song-a.mp3", title := "Song A",
    artist := some "Artist", type := "music", duration := 180000,
    startTime := none }

/-- A one-song library: the music pool holds a single title and every other
pool is empty.  Drawing from it always returns that one song. -/
def libOneSong : Library :=
  { music := [songA]
    jingles := [], ads := [], djIntros := [], djOutros := [], djSolos := []
    djIds := []
    djTimeOfDay := fun _ => []
    djWeather := fun _ => []
    djTransitions := fun _ => [] }

/-- The constantly-zero `Math.random()` oracle (a legal outcome stream). -/
def uZero : Nat → ℚ := fun _ => 0

/-- The constantly-one-half `Math.random()` oracle. -/
def uHalf : Nat → ℚ := fun _ => 1/2

/-- The gapless invariant of the spec, as a decidable check: every adjacent
pair of members satisfies
`member[i+1].startTime == member[i].startTime + member[i].duration`. -/
def pairwiseContiguous : List AudioItem → Bool
  | x :: y :: rest =>
    (y.startTime == x.startTime.map (· + x.duration)) &&
      pairwiseContiguous (y :: rest)
  | _ => true

/-- A DJ intro item, as classified from an `INTRO_` file. -/
def introItem : AudioItem :=
  { path := some "/audio/intro_1.mp3", title := "intro_1", artist := none,
    type := "dj-intro", duration := 7000, startTime := none }

/-- A music item, as built by `createMusicItem`. -/
def musicItem : AudioItem :=
  { path := some "/audio/Artist - Song B.mp3", title := "Song B",
    artist := some "Artist", type := "music", duration := 200000,
    startTime := none }

/-- A jingle item, as classified from a `JINGLE` file. -/
def jingleItem : AudioItem :=
  { path := some "/audio/jingle_1.mp3", title := "jingle_1", artist := none,
    type := "jingle", duration := 10000, startTime := none }

/-- A library whose only non-empty pool is a single jingle. -/
def libJingleOnly : Library :=
  { music := [], jingles := [jingleItem], ads := [], djIntros := [],
    djOutros := [], djSolos := [], djIds := []
    djTimeOfDay := fun _ => []
    djWeather := fun _ => []
    djTransitions := fun _ => [] }

/-- The oracle stream of the station-id gap counterexample: every
`Math.random()` call returns 0 except draw 15 (the period draw at position 5),
which returns 1/3, so the drawn period never divides the position. -/
def uGap : Nat → ℚ := fun k => if k = 15 then 1/3 else 0

/-- The jingle item as it appears in a generated playlist (start time
assigned at `Date.now() = 0`). -/
def playedJingle : AudioItem := { jingleItem with startTime := some 0 }

/-- The one song of `libOneSong` as it appears in a generated playlist. -/
def playedSongA : AudioItem := { songA with startTime := some 0 }

/-- A weather transition item (`TO_WEATHER_` file), a member of the weather
segments that `scheduleWeatherSegment` unshifts onto the queue. -/
def toWeatherItem : AudioItem :=
  { path := some "/audio/to_weather_1.mp3", title := "to_weather_1",
    artist := none, type := "dj-transition-weather", duration := 4000,
    startTime := none }

/-- A weather announcement item (`SUN_` file). -/
def sunWeatherItem : AudioItem :=
  { path := some "/audio/sun_1.mp3", title := "sun_1", artist := none,
    type := "dj-weather-sun", duration := 8000, startTime := none }

/-- C1: the music-solo builder does not bound its retries.  With a music pool
whose only title is already in the play history, `createMusic` re-draws the
same title and recurses forever: for every fuel bound and every draw counter
it exhausts the fuel without ever returning — in particular it never falls
back to a filler item.  This contradicts the claimed bounded-retry fallback;
the spec itself flags the unbounded form as disallowed, so the code, not the
claim, is wrong. -/
theorem createMusic_unbounded_recursion :
    ∀ (fuel k : Nat),
      createMusic libOneSong uZero 0 fuel ⟨k, ["Song A"]⟩ = none := by
  intro fuel
  induction fuel with
  | zero => intro k; rfl
  | succ n ih =>
    intro k
    have hdraw : getRandomFrom uZero libOneSong.music ⟨k, ["Song A"]⟩ =
        (some songA, ⟨k + 1, ["Song A"]⟩) := by
      norm_num [getRandomFrom, uZero, libOneSong]
    rw [createMusic, hdraw]
    simp only [wasRecentlyPlayed, songA, List.contains_cons]
    norm_num
    exact ih (k + 1)

/-- C10: calling `playGaplessSequence` with an empty member list is a
complete no-op: the state (current pipeline, current track, listener set) is
returned unchanged and no effect — no teardown, no spawn, no metadata
broadcast — is performed. -/
theorem playGaplessSequence_empty_noop :
    ∀ (st : ESMState) (pid : Nat), playGaplessSequence st [] pid = (st, []) :=
  fun _ _ => rfl

/-- C3: the "upcoming" projection does not flatten segments.  On a queue
whose front entry is a weather segment (as unshifted by
`scheduleWeatherSegment`), `getUpcoming` maps the property accesses over the
array itself, so every field of the returned record is `undefined` — neither
a flattening nor the first member's fields, contradicting the claim. -/
theorem getUpcoming_segment_undefined :
    getUpcoming [QueueEntry.seg [toWeatherItem, sunWeatherItem]] =
      [⟨none, none, none, none⟩] := rfl

/-- C2: in the `EnhancedStreamManager` the server runs, requesting fallback
audio synthesizes nothing.  Playing the synthetic filler item (null path,
5000 ms) with one connected listener and a live pipeline merely kills that
pipeline: the resulting state has no stream and the only effect is the kill —
no tone is synthesized and nothing is broadcast, so the stream goes silent,
contradicting the claim (which the base `StreamManager.playFallbackAudio`
does implement). -/
theorem playTrack_fallback_goes_silent :
    playTrack ⟨[⟨0, false⟩], some 7, some 7, none⟩ (createFallbackItem 0) 9 =
      (⟨[⟨0, false⟩], none, none, some (createFallbackItem 0)⟩,
        [Effect.killPipeline 7]) := rfl

/-- C9 (counterexample): for a 4081-byte title the metadata payload is 4096
bytes, so the unit count is 256, but `Buffer.from([256])` stores the length
byte modulo 256: the first byte of the packet is 0, not the unit count. -/
theorem icyPacket_length_byte_overflow :
    icyUnits (List.replicate 4081 97) [] = 256 ∧
    (icyPacket (List.replicate 4081 97) []).head? = some 0 ∧
    (0 : Nat) ≠ 256 := by
  have hlen : (icyMetadataString (List.replicate 4081 97) []).length = 4096 := by
    norm_num [icyMetadataString, streamTitleOpen, streamTitleClose,
      artistSeparator, List.replicate_eq_nil_iff]
  have hunits : icyUnits (List.replicate 4081 97) [] = 256 := by
    rw [icyUnits, hlen]
  have hhead : (icyPacket (List.replicate 4081 97) []).head? =
      some (icyUnits (List.replicate 4081 97) [] % 256) := rfl
  refine ⟨hunits, ?_, by decide⟩
  rw [hhead, hunits]

/-- C9 (amended): the packet built by `sendICYMetadata` is exactly
`1 + 16·k` bytes, where `k·16` is the metadata text length rounded up to a
multiple of 16, and its first byte is `k mod 256` (hence `k` itself whenever
the text is at most 4080 bytes). -/
theorem icyPacket_structure (title artist : List Nat) :
    (icyPacket title artist).length = 1 + 16 * icyUnits title artist ∧
    (icyPacket title artist).head? = some (icyUnits title artist % 256) := by
  constructor
  · simp only [icyPacket, icyUnits, List.length_cons, List.length_append,
      List.length_replicate]
    omega
  · exact rfl

/-- C8 (counterexample): the duration estimate is not deterministic for a
file whose size cannot be read: the catch branch is `Math.random()`-based,
and two runs with different draws differ (60000 ms vs 180000 ms). -/
theorem estimateDuration_catch_is_random :
    estimateDurationFromFileSize none ".mp3" 0 = 60000 ∧
    estimateDurationFromFileSize none ".mp3" (1/2) = 180000 ∧
    (60000 : ℤ) ≠ 180000 := by
  refine ⟨?_, ?_, by decide⟩ <;> norm_num [estimateDurationFromFileSize]

/-- C8 (amended): the estimate is deterministic whenever the file size can be
read — it depends only on size and extension, not on the random draw — and
for an unreadable size it is a randomized value in [60000, 300000) ms. -/
theorem estimateDuration_deterministic_when_readable (size : Nat)
    (ext : String) (q q2 : ℚ) (h0 : 0 ≤ q) (h1 : q < 1) :
    estimateDurationFromFileSize (some size) ext q =
      estimateDurationFromFileSize (some size) ext q2 ∧
    60000 ≤ estimateDurationFromFileSize none ext q ∧
    estimateDurationFromFileSize none ext q < 300000 := by
  refine ⟨rfl, ?_, ?_⟩
  · have h2 : (0 : ℤ) ≤ ⌊q * 240000⌋ := Int.floor_nonneg.mpr (by positivity)
    simp only [estimateDurationFromFileSize]
    omega
  · have h2 : ⌊q * 240000⌋ < 240000 := by
      refine Int.floor_lt.mpr ?_
      push_cast
      nlinarith
    simp only [estimateDurationFromFileSize]
    omega

/-- Witness for the amended C8: a 1 MiB mp3 file gets the same estimate for
two different random draws, and an unreadable size at draw 0 yields an
estimate inside [60000, 300000). -/
theorem estimateDuration_deterministic_when_readable_witness :
    (0 : ℚ) ≤ 0 ∧ (0 : ℚ) < 1 ∧
    (estimateDurationFromFileSize (some 1048576) ".mp3" 0 =
        estimateDurationFromFileSize (some 1048576) ".mp3" (1/2) ∧
      60000 ≤ estimateDurationFromFileSize none ".mp3" 0 ∧
      estimateDurationFromFileSize none ".mp3" 0 < 300000) :=
  ⟨le_refl 0, by norm_num,
    estimateDuration_deterministic_when_readable 1048576 ".mp3" 0 (1/2)
      (le_refl 0) (by norm_num)⟩

/-- The timing pass always produces pairwise-contiguous start times: each
member starts where the previous one ends. -/
theorem applyGaplessTiming_pairwise (l : List AudioItem) :
    ∀ t : Nat, pairwiseContiguous (applyGaplessTiming t l) = true := by
  induction l with
  | nil => intro t; rfl
  | cons x xs ih =>
    intro t
    cases xs with
    | nil => rfl
    | cons y rest =>
      have hy := ih (t + x.duration)
      simp only [applyGaplessTiming] at hy ⊢
      simp only [pairwiseContiguous, Bool.and_eq_true]
      exact ⟨by simp, hy⟩

/-- The timing pass leaves the `isGaplessEnd` flags untouched. -/
theorem applyGaplessTiming_isGaplessEnd (l : List AudioItem) :
    ∀ t : Nat, (applyGaplessTiming t l).map AudioItem.isGaplessEnd =
      l.map AudioItem.isGaplessEnd := by
  induction l with
  | nil => intro t; rfl
  | cons x xs ih =>
    intro t
    simp only [applyGaplessTiming, List.map_cons, ih]

/-- Marking the last member never produces an empty list from a non-empty
one. -/
theorem markLastGaplessEnd_ne_nil (l : List AudioItem) (h : l ≠ []) :
    markLastGaplessEnd l ≠ [] := by
  cases l with
  | nil => exact absurd rfl h
  | cons x xs => cases xs <;> simp [markLastGaplessEnd]

/-- After marking, the last member carries the `isGaplessEnd` flag. -/
theorem markLastGaplessEnd_getLast (l : List AudioItem) :
    l ≠ [] →
      (markLastGaplessEnd l).getLast?.map AudioItem.isGaplessEnd =
        some true := by
  induction l with
  | nil => intro h; exact absurd rfl h
  | cons x xs ih =>
    intro _
    cases xs with
    | nil => rfl
    | cons y rest =>
      have hne : markLastGaplessEnd (y :: rest) ≠ [] :=
        markLastGaplessEnd_ne_nil (y :: rest) (by simp)
      rw [markLastGaplessEnd]
      obtain ⟨c, M, hM⟩ : ∃ c M, markLastGaplessEnd (y :: rest) = c :: M := by
        cases hM2 : markLastGaplessEnd (y :: rest) with
        | nil => exact absurd hM2 hne
        | cons c M => exact ⟨c, M, rfl⟩
      rw [hM, List.getLast?_cons_cons, ← hM]
      exact ih (by simp)

/-- C5: `createGaplessSequence` on two or more items yields contiguous start
times (`member[i+1].startTime = member[i].startTime + member[i].duration` for
every adjacent pair), the first member carrying `isGaplessStart` and the last
carrying `isGaplessEnd`. -/
theorem createGaplessSequence_invariant (now : Nat) (items : List AudioItem)
    (h : 2 ≤ items.length) :
    pairwiseContiguous (createGaplessSequence now items) = true ∧
    ((createGaplessSequence now items).head?.map AudioItem.isGaplessStart) =
      some true ∧
    ((createGaplessSequence now items).getLast?.map AudioItem.isGaplessEnd) =
      some true := by
  match items, h with
  | a :: b :: rest, _ =>
    have hcond : ¬((a :: b :: rest).length ≤ 1) := by
      simp only [List.length_cons]; omega
    have hseq : createGaplessSequence now (a :: b :: rest) =
        applyGaplessTiming now
          (markLastGaplessEnd (markFirstGaplessStart (a :: b :: rest))) := by
      simp only [createGaplessSequence, if_neg hcond]
    refine ⟨hseq ▸ applyGaplessTiming_pairwise _ now, ?_, ?_⟩
    · rw [hseq]
      simp only [markFirstGaplessStart, markLastGaplessEnd,
        applyGaplessTiming, List.head?_cons]
      rfl
    · rw [hseq]
      have hflag := applyGaplessTiming_isGaplessEnd
        (markLastGaplessEnd (markFirstGaplessStart (a :: b :: rest))) now
      have h1 :
          (applyGaplessTiming now
            (markLastGaplessEnd (markFirstGaplessStart (a :: b :: rest)))
            ).getLast?.map AudioItem.isGaplessEnd =
          (markLastGaplessEnd (markFirstGaplessStart (a :: b :: rest))
            ).getLast?.map AudioItem.isGaplessEnd := by
        rw [← List.getLast?_map, ← List.getLast?_map, hflag]
      rw [h1]
      exact markLastGaplessEnd_getLast _ (by simp [markFirstGaplessStart])

/-- Witness for C5 at a concrete two-member sequence (a DJ intro and a music
item glued at `Date.now() = 100`). -/
theorem createGaplessSequence_invariant_witness :
    2 ≤ ([introItem, musicItem] : List AudioItem).length ∧
    (pairwiseContiguous (createGaplessSequence 100 [introItem, musicItem]) =
        true ∧
      ((createGaplessSequence 100 [introItem, musicItem]).head?.map
        AudioItem.isGaplessStart) = some true ∧
      ((createGaplessSequence 100 [introItem, musicItem]).getLast?.map
        AudioItem.isGaplessEnd) = some true) :=
  ⟨by decide, createGaplessSequence_invariant 100 [introItem, musicItem]
    (by decide)⟩

/-- The timing pass preserves the member count. -/
theorem applyGaplessTiming_length (l : List AudioItem) :
    ∀ t : Nat, (applyGaplessTiming t l).length = l.length := by
  induction l with
  | nil => intro t; rfl
  | cons x xs ih => intro t; simp [applyGaplessTiming, ih]

/-- Marking the last member preserves the member count. -/
theorem markLastGaplessEnd_length (l : List AudioItem) :
    (markLastGaplessEnd l).length = l.length := by
  induction l with
  | nil => rfl
  | cons x xs ih =>
    cases xs with
    | nil => rfl
    | cons y rest => simpa [markLastGaplessEnd] using ih

/-- Marking the first member preserves the member count. -/
theorem markFirstGaplessStart_length (l : List AudioItem) :
    (markFirstGaplessStart l).length = l.length := by
  cases l <;> rfl

/-- `createGaplessSequence` preserves the member count. -/
theorem createGaplessSequence_length (now : Nat) (items : List AudioItem) :
    (createGaplessSequence now items).length = items.length := by
  by_cases h : items.length ≤ 1 <;>
    simp [createGaplessSequence, h, applyGaplessTiming_length,
      markLastGaplessEnd_length, markFirstGaplessStart_length]

/-- `createMusicWithIntro` never returns an empty entry: a missing intro
degrades to the bare music item, otherwise a two-member sequence. -/
theorem createMusicWithIntro_length (lib : Library) (u : Nat → ℚ)
    (now fuel : Nat) (s : GenState) (items : List AudioItem) (s2 : GenState)
    (h : createMusicWithIntro lib u now fuel s = some (items, s2)) :
    1 ≤ items.length := by
  unfold createMusicWithIntro at h
  split at h
  split at h
  · exact absurd h (by simp)
  · split at h
    · injection h with h2
      injection h2 with h3 h4
      rw [← h3]
      simp
    · injection h with h2
      injection h2 with h3 h4
      rw [← h3, createGaplessSequence_length]
      simp

/-- `createMusicWithOutro` never returns an empty entry. -/
theorem createMusicWithOutro_length (lib : Library) (u : Nat → ℚ)
    (now fuel : Nat) (s : GenState) (items : List AudioItem) (s2 : GenState)
    (h : createMusicWithOutro lib u now fuel s = some (items, s2)) :
    1 ≤ items.length := by
  unfold createMusicWithOutro at h
  split at h
  · exact absurd h (by simp)
  · split at h
    · injection h with h2
      injection h2 with h3 h4
      rw [← h3]
      simp
    · injection h with h2
      injection h2 with h3 h4
      rw [← h3, createGaplessSequence_length]
      simp

/-- Each position of the `generatePlaylist` loop contributes at least one
item, whatever the content type. -/
theorem buildPlaylistEntry_length (lib : Library) (u : Nat → ℚ)
    (now fuel position : Nat) (s : GenState) (items : List AudioItem)
    (s2 : GenState)
    (h : buildPlaylistEntry lib u now fuel position s = some (items, s2)) :
    1 ≤ items.length := by
  unfold buildPlaylistEntry at h
  split at h
  split at h
  · exact createMusicWithIntro_length _ _ _ _ _ _ _ h
  · split at h
    · exact createMusicWithOutro_length _ _ _ _ _ _ _ h
    · split at h
      · rcases Option.map_eq_some'.mp h with ⟨p, hp, h2⟩
        injection h2 with h3 h4
        rw [← h3]
        simp
      · split at h
        · split at h
          injection h with h2
          injection h2 with h3 h4
          rw [← h3]
          simp
        · split at h
          · split at h
            injection h with h2
            injection h2 with h3 h4
            rw [← h3]
            simp
          · split at h
            · split at h
              injection h with h2
              injection h2 with h3 h4
              rw [← h3]
              simp
            · rcases Option.map_eq_some'.mp h with ⟨p, hp, h2⟩
              injection h2 with h3 h4
              rw [← h3]
              simp

/-- The playlist loop produces at least as many flattened items as the number
of positions it was asked for. -/
theorem genLoop_count (lib : Library) (u : Nat → ℚ) (now fuel : Nat) :
    ∀ (count position : Nat) (s : GenState) (pl : List AudioItem)
      (s2 : GenState),
      genLoop lib u now fuel position count s = some (pl, s2) →
      count ≤ pl.length := by
  intro count
  induction count with
  | zero => intro position s pl s2 h; exact Nat.zero_le _
  | succ n ih =>
    intro position s pl s2 h
    simp only [genLoop] at h
    cases hb : buildPlaylistEntry lib u now fuel position s with
    | none => simp [hb] at h
    | some p =>
      obtain ⟨items, s1⟩ := p
      simp only [hb] at h
      cases hr : genLoop lib u now fuel (position + 1) n s1 with
      | none => simp [hr] at h
      | some q =>
        obtain ⟨rest, s3⟩ := q
        simp only [hr] at h
        injection h with h2
        injection h2 with h3 h4
        have hbl : 1 ≤ items.length :=
          buildPlaylistEntry_length lib u now fuel position s items s1 hb
        have hrl : n ≤ rest.length := ih (position + 1) s1 rest s3 hr
        rw [← h3, List.length_append]
        omega

/-- C4: whenever `generatePlaylist(count)` returns, its flattened item count
is at least `count`: every position contributes one item or a multi-member
sequence, never zero items. -/
theorem generatePlaylist_count (lib : Library) (u : Nat → ℚ)
    (now fuel count : Nat) (s : GenState) (pl : List AudioItem)
    (s2 : GenState)
    (h : generatePlaylist lib u now fuel count s = some (pl, s2)) :
    count ≤ pl.length :=
  genLoop_count lib u now fuel count 0 s pl s2 h

/-- Witness for C4: a concrete one-position run over the one-song library
(the draw 1/2 selects solo music) returns a one-item playlist. -/
theorem generatePlaylist_count_witness :
    generatePlaylist libOneSong uHalf 0 1 1 ⟨0, []⟩ =
      some ([playedSongA], ⟨2, ["Song A"]⟩) ∧
    1 ≤ [playedSongA].length :=
  have hct : determineContentType uHalf 0 ⟨0, []⟩ = ("music-solo", ⟨1, []⟩) := by
    simp [determineContentType, weightedPick, uHalf]
    norm_num
  have hcm : createMusic libOneSong uHalf 0 1 ⟨1, []⟩ =
      some (playedSongA, ⟨2, ["Song A"]⟩) := by
    have hdraw : getRandomFrom uHalf libOneSong.music ⟨1, []⟩ =
        (some songA, ⟨2, []⟩) := by
      norm_num [getRandomFrom, uHalf, libOneSong]
    rw [createMusic, hdraw]
    simp [wasRecentlyPlayed, addToHistory, maxHistorySize, songA, playedSongA]
  have hbuild : buildPlaylistEntry libOneSong uHalf 0 1 0 ⟨0, []⟩ =
      some ([playedSongA], ⟨2, ["Song A"]⟩) := by
    unfold buildPlaylistEntry
    rw [hct]
    simp [hcm]
  have h : generatePlaylist libOneSong uHalf 0 1 1 ⟨0, []⟩ =
      some ([playedSongA], ⟨2, ["Song A"]⟩) := by
    unfold generatePlaylist
    simp only [genLoop, hbuild, List.append_nil]
  ⟨h, generatePlaylist_count libOneSong uHalf 0 1 1 ⟨0, []⟩ [playedSongA]
    ⟨2, ["Song A"]⟩ h⟩

/-- With an empty ad pool, every iteration of the ad-collection loop draws
`null` and pushes nothing, whatever the requested count. -/
theorem collectAds_empty_pool (lib : Library) (u : Nat → ℚ)
    (hAds : lib.ads = []) :
    ∀ (n : Nat) (seg : List AudioItem) (s : GenState),
      collectAds lib u n seg s = (seg, s) := by
  intro n
  induction n with
  | zero => intro seg s; rfl
  | succ m ih => intro seg s; simp [collectAds, hAds, getRandomFrom, ih]

/-- C7: when both the ad pool and the `TO_AD` transition pool are empty,
`createAdSegment` returns exactly one filler item — a synthetic item with a
null path and the fixed 5000 ms default duration — never an error and never
an empty result. -/
theorem createAdSegment_empty_pools (lib : Library) (u : Nat → ℚ) (now : Nat)
    (s : GenState) (hAds : lib.ads = [])
    (hTrans : lib.djTransitions "TO_AD" = []) :
    (createAdSegment lib u now s).1 = [createFallbackItem now] ∧
    (createFallbackItem now).path = none ∧
    (createFallbackItem now).duration = 5000 := by
  refine ⟨?_, rfl, rfl⟩
  unfold createAdSegment
  rw [hTrans]
  simp [getRandomFrom, collectAds_empty_pool lib u hAds]

/-- Witness for C7 on a concrete library whose ad and `TO_AD` pools are
empty. -/
theorem createAdSegment_empty_pools_witness :
    libOneSong.ads = [] ∧ libOneSong.djTransitions "TO_AD" = [] ∧
    ((createAdSegment libOneSong uZero 0 ⟨0, []⟩).1 = [createFallbackItem 0] ∧
      (createFallbackItem 0).path = none ∧
      (createFallbackItem 0).duration = 5000) :=
  ⟨rfl, rfl, createAdSegment_empty_pools libOneSong uZero 0 ⟨0, []⟩ rfl rfl⟩

/-- The gap oracle is zero away from draw 15. -/
theorem uGap_eq_zero (k : Nat) (h : k ≠ 15) : uGap k = 0 := by
  simp [uGap, h]

/-- Drawing a jingle from the jingle-only library returns its one jingle and
advances the draw counter. -/
theorem createJingle_libJingleOnly (k : Nat) (h2 : uGap k = 0) :
    createJingle libJingleOnly uGap 0 ⟨k, []⟩ = (playedJingle, ⟨k + 1, []⟩) := by
  have hdraw : getRandomFrom uGap libJingleOnly.jingles ⟨k, []⟩ =
      (some jingleItem, ⟨k + 1, []⟩) := by
    norm_num [getRandomFrom, libJingleOnly, h2]
  simp [createJingle, hdraw, playedJingle]

/-- At position 0 the period draw is skipped and the zero draw picks a
jingle. -/
theorem determineContentType_uGap_zero :
    determineContentType uGap 0 ⟨0, []⟩ = ("jingle", ⟨1, []⟩) := by
  simp only [determineContentType]
  norm_num [weightedPick, uGap]

/-- At a positive position whose freshly drawn period does not divide it, the
zero draw picks a jingle (the weighted cascade, not a forced station-id). -/
theorem determineContentType_uGap (i k : Nat) (hpos : 0 < i)
    (h2 : uGap k = 0)
    (hmod : i % (5 + Int.toNat ⌊uGap (k + 1) * 3⌋) ≠ 0) :
    determineContentType uGap i ⟨k, []⟩ = ("jingle", ⟨k + 2, []⟩) := by
  simp only [determineContentType]
  rw [if_pos hpos, if_neg hmod, h2]
  norm_num [weightedPick]

/-- A position of the playlist loop whose content type resolves to a jingle
contributes exactly that jingle. -/
theorem buildPlaylistEntry_jingle (i : Nat) (s s2 s3 : GenState)
    (hct : determineContentType uGap i s = ("jingle", s2))
    (hj : createJingle libJingleOnly uGap 0 s2 = (playedJingle, s3)) :
    buildPlaylistEntry libJingleOnly uGap 0 1 i s =
      some ([playedJingle], s3) := by
  unfold buildPlaylistEntry
  rw [hct]
  simp [hj]

/-- C6 (counterexample): a concrete 8-position run of `generatePlaylist`
over legal `Math.random()` outcomes (all draws 0 except the period draw at
position 5, which is 1/3) selects a jingle at all eight consecutive
positions: the period is redrawn at every position, so whenever it fails to
divide the position no station-id is forced, and the weighted cascade never
yields one.  Eight (> 7) consecutive positions pass without any station-id
entry, refuting the claimed 5–7-position cadence. -/
theorem generatePlaylist_station_gap_counterexample :
    generatePlaylist libJingleOnly uGap 0 1 8 ⟨0, []⟩ =
      some ([playedJingle, playedJingle, playedJingle, playedJingle,
             playedJingle, playedJingle, playedJingle, playedJingle],
            ⟨23, []⟩) ∧
    ([playedJingle, playedJingle, playedJingle, playedJingle, playedJingle,
      playedJingle, playedJingle, playedJingle] : List AudioItem).length = 8 ∧
    ([playedJingle, playedJingle, playedJingle, playedJingle, playedJingle,
      playedJingle, playedJingle, playedJingle] : List AudioItem).all
      (fun a => !(a.type == "station-id") && !(a.type == "dj-id")) = true := by
  have b0 : buildPlaylistEntry libJingleOnly uGap 0 1 0 ⟨0, []⟩ =
      some ([playedJingle], ⟨2, []⟩) :=
    buildPlaylistEntry_jingle 0 ⟨0, []⟩ ⟨1, []⟩ ⟨2, []⟩
      determineContentType_uGap_zero
      (createJingle_libJingleOnly 1 (uGap_eq_zero 1 (by decide)))
  have b1 : buildPlaylistEntry libJingleOnly uGap 0 1 1 ⟨2, []⟩ =
      some ([playedJingle], ⟨5, []⟩) :=
    buildPlaylistEntry_jingle 1 ⟨2, []⟩ ⟨4, []⟩ ⟨5, []⟩
      (determineContentType_uGap 1 2 (by decide) (uGap_eq_zero 2 (by decide))
        (by norm_num [uGap]))
      (createJingle_libJingleOnly 4 (uGap_eq_zero 4 (by decide)))
  have b2 : buildPlaylistEntry libJingleOnly uGap 0 1 2 ⟨5, []⟩ =
      some ([playedJingle], ⟨8, []⟩) :=
    buildPlaylistEntry_jingle 2 ⟨5, []⟩ ⟨7, []⟩ ⟨8, []⟩
      (determineContentType_uGap 2 5 (by decide) (uGap_eq_zero 5 (by decide))
        (by norm_num [uGap]))
      (createJingle_libJingleOnly 7 (uGap_eq_zero 7 (by decide)))
  have b3 : buildPlaylistEntry libJingleOnly uGap 0 1 3 ⟨8, []⟩ =
      some ([playedJingle], ⟨11, []⟩) :=
    buildPlaylistEntry_jingle 3 ⟨8, []⟩ ⟨10, []⟩ ⟨11, []⟩
      (determineContentType_uGap 3 8 (by decide) (uGap_eq_zero 8 (by decide))
        (by norm_num [uGap]))
      (createJingle_libJingleOnly 10 (uGap_eq_zero 10 (by decide)))
  have b4 : buildPlaylistEntry libJingleOnly uGap 0 1 4 ⟨11, []⟩ =
      some ([playedJingle], ⟨14, []⟩) :=
    buildPlaylistEntry_jingle 4 ⟨11, []⟩ ⟨13, []⟩ ⟨14, []⟩
      (determineContentType_uGap 4 11 (by decide)
        (uGap_eq_zero 11 (by decide)) (by norm_num [uGap]))
      (createJingle_libJingleOnly 13 (uGap_eq_zero 13 (by decide)))
  have b5 : buildPlaylistEntry libJingleOnly uGap 0 1 5 ⟨14, []⟩ =
      some ([playedJingle], ⟨17, []⟩) :=
    buildPlaylistEntry_jingle 5 ⟨14, []⟩ ⟨16, []⟩ ⟨17, []⟩
      (determineContentType_uGap 5 14 (by decide)
        (uGap_eq_zero 14 (by decide)) (by norm_num [uGap]))
      (createJingle_libJingleOnly 16 (uGap_eq_zero 16 (by decide)))
  have b6 : buildPlaylistEntry libJingleOnly uGap 0 1 6 ⟨17, []⟩ =
      some ([playedJingle], ⟨20, []⟩) :=
    buildPlaylistEntry_jingle 6 ⟨17, []⟩ ⟨19, []⟩ ⟨20, []⟩
      (determineContentType_uGap 6 17 (by decide)
        (uGap_eq_zero 17 (by decide)) (by norm_num [uGap]))
      (createJingle_libJingleOnly 19 (uGap_eq_zero 19 (by decide)))
  have b7 : buildPlaylistEntry libJingleOnly uGap 0 1 7 ⟨20, []⟩ =
      some ([playedJingle], ⟨23, []⟩) :=
    buildPlaylistEntry_jingle 7 ⟨20, []⟩ ⟨22, []⟩ ⟨23, []⟩
      (determineContentType_uGap 7 20 (by decide)
        (uGap_eq_zero 20 (by decide)) (by norm_num [uGap]))
      (createJingle_libJingleOnly 22 (uGap_eq_zero 22 (by decide)))
  refine ⟨?_, by decide, by decide⟩
  unfold generatePlaylist
  simp only [genLoop, b0, b1, b2, b3, b4, b5, b6, b7, List.cons_append,
    List.nil_append]

/-- C6 (amended): the forced station-id fires at a positive position exactly
when the period freshly drawn there divides it; since the drawn period always
lies in {5, 6, 7}, every position divisible by 210 forces a station-id
whatever the draw — but no shorter cadence is guaranteed. -/
theorem determineContentType_forced_multiple (u : Nat → ℚ) (position : Nat)
    (s : GenState) (hpos : 0 < position) (hdvd : 210 ∣ position)
    (h0 : 0 ≤ u (s.k + 1)) (h1 : u (s.k + 1) < 1) :
    (determineContentType u position s).1 = "station-id" := by
  have hf3 : ⌊u (s.k + 1) * 3⌋ < 3 := by
    refine Int.floor_lt.mpr ?_
    push_cast
    nlinarith
  have hf0 : (0 : ℤ) ≤ ⌊u (s.k + 1) * 3⌋ := Int.floor_nonneg.mpr (by positivity)
  have hm2 : Int.toNat ⌊u (s.k + 1) * 3⌋ ≤ 2 := by omega
  have hper : (5 + Int.toNat ⌊u (s.k + 1) * 3⌋) ∣ 210 := by
    set m := Int.toNat ⌊u (s.k + 1) * 3⌋ with hm
    interval_cases m <;> decide
  have hmod : position % (5 + Int.toNat ⌊u (s.k + 1) * 3⌋) = 0 :=
    Nat.dvd_iff_mod_eq_zero.mp (hper.trans hdvd)
  simp only [determineContentType]
  rw [if_pos hpos, if_pos hmod]

/-- Witness for the amended C6 at position 210 with the zero oracle. -/
theorem determineContentType_forced_multiple_witness :
    0 < 210 ∧ (210 : Nat) ∣ 210 ∧ (0 : ℚ) ≤ uZero 1 ∧ uZero 1 < 1 ∧
    (determineContentType uZero 210 ⟨0, []⟩).1 = "station-id" :=
  ⟨by decide, dvd_refl 210, by norm_num [uZero], by norm_num [uZero],
    determineContentType_forced_multiple uZero 210 ⟨0, []⟩ (by decide)
      (dvd_refl 210) (by norm_num [uZero]) (by norm_num [uZero])⟩

/-- The base `StreamManager.playFallbackAudio` (lines the spec's fallback
contract describes) does meet the tolerance: the synthesized tone's play
length is within 1 ms below the requested duration — well inside the claimed
±50 ms — for every track duration.  This is the behavior the
`EnhancedStreamManager` stub drops. -/
theorem streamManager_fallback_length (trackDuration : Nat) :
    0 ≤ (streamManagerFallbackDuration trackDuration : ℚ) -
        fallbackPlayLengthMs trackDuration ∧
    (streamManagerFallbackDuration trackDuration : ℚ) -
        fallbackPlayLengthMs trackDuration < 1 := by
  set D : ℚ := (streamManagerFallbackDuration trackDuration : ℚ) with hD
  have hD0 : 0 ≤ D := by positivity
  have hx0 : 0 ≤ D * 44100 / 1000 := by positivity
  have hfl : (0 : ℤ) ≤ ⌊D * 44100 / 1000⌋ := Int.floor_nonneg.mpr hx0
  have htn : ((Int.toNat ⌊D * 44100 / 1000⌋ : ℤ) : ℚ) =
      ((⌊D * 44100 / 1000⌋ : ℤ) : ℚ) := by
    rw [Int.toNat_of_nonneg hfl]
  have hcast : ((fallbackSamples trackDuration : Nat) : ℚ) =
      ((⌊D * 44100 / 1000⌋ : ℤ) : ℚ) := by
    rw [fallbackSamples, ← hD]
    exact_mod_cast congrArg (fun z : ℤ => (z : ℚ)) (Int.toNat_of_nonneg hfl)
  have hub : ((⌊D * 44100 / 1000⌋ : ℤ) : ℚ) ≤ D * 44100 / 1000 :=
    Int.floor_le _
  have hlb : D * 44100 / 1000 - 1 < ((⌊D * 44100 / 1000⌋ : ℤ) : ℚ) :=
    Int.sub_one_lt_floor _
  rw [fallbackPlayLengthMs, hcast]
  constructor
  · nlinarith
  · nlinarith

end SelfRadioSpec
